import Mathlib

/-
Verification of the remote-desktop server core (Koko).

Shallow embedding of the capture-pipeline builder, monitor directory,
clipboard manager, input injector and shutdown coordinator, translated
from the Rust sources under crates/server/src.  External effects
(GStreamer plugin probing, the host clipboard, the host input system,
thread scheduling) are made explicit parameters or explicit state.
-/

namespace Koko

/-! Section: Data model (crates/server/src/capture/mod.rs, monitor.rs) -/

/-- Monitor geometry record, from `capture/monitor.rs` (`MonitorInfo`). -/
structure MonitorInfo where
  index : Nat
  name : String
  x : Int
  y : Int
  width : Nat
  height : Nat
  primary : Bool
deriving DecidableEq

/-- Hardware-acceleration selector, from `capture/mod.rs` (`HardwareAccel`). -/
inductive HardwareAccel where
  | None
  | Nvenc
  | Vaapi
  | Auto
deriving DecidableEq

/-- Encoder quality settings, from `capture/mod.rs` (`QualitySettings`). -/
structure QualitySettings where
  bitrate : Nat
  preset : String
  crf : Nat
deriving DecidableEq

/-- Capture configuration, from `capture/mod.rs` (`CaptureConfig`). -/
structure CaptureConfig where
  framerate : Nat
  hw_accel : HardwareAccel
  quality : QualitySettings
  monitors : List Nat
deriving DecidableEq

/-- The `impl Default for CaptureConfig` in `capture/mod.rs`. -/
def CaptureConfig.default : CaptureConfig :=
  { framerate := 60
    hw_accel := HardwareAccel.Auto
    quality := { bitrate := 10000, preset := "ultrafast", crf := 23 }
    monitors := [0] }

/-! Section: Capture pipeline builder (crates/server/src/capture/x11_capture.rs) -/

/-- Fixed result of the GStreamer plugin-availability probe: what
`is_nvenc_available` / `is_vaapi_available` report in `x11_capture.rs`. -/
structure Probe where
  nvenc_available : Bool
  vaapi_available : Bool

/-- The software-encoder element string from the `HardwareAccel::None`
branch of `build_pipeline`. -/
def x264enc_desc (preset : String) (bitrate keyint : Nat) : String :=
  "x264enc tune=zerolatency speed-preset=" ++ preset ++ " bitrate=" ++
    toString bitrate ++ " key-int-max=" ++ toString keyint

/-- The NVENC-encoder element string from the `HardwareAccel::Nvenc`
branch of `build_pipeline`. -/
def nvh264enc_desc (bitrate gop : Nat) : String :=
  "nvh264enc preset=low-latency-hq rc-mode=cbr bitrate=" ++
    toString bitrate ++ " gop-size=" ++ toString gop

/-- The VAAPI-encoder element string from the `HardwareAccel::Vaapi`
branch of `build_pipeline`. -/
def vaapih264enc_desc (bitrate keyframe_period : Nat) : String :=
  "vaapih264enc rate-control=cbr bitrate=" ++
    toString bitrate ++ " keyframe-period=" ++ toString keyframe_period

/-- The `let encoder = match config.hw_accel { ... }` selection inside
`build_pipeline` in `x11_capture.rs`, with the two availability probes
passed in explicitly.  The source computes `config.framerate * 2` in
`u32`, so the multiplication wraps modulo 2^32. -/
def encoderFor (probe : Probe) (config : CaptureConfig) : String :=
  match config.hw_accel with
  | HardwareAccel.None =>
      x264enc_desc config.quality.preset config.quality.bitrate
        (config.framerate * 2 % 4294967296)
  | HardwareAccel.Nvenc =>
      nvh264enc_desc config.quality.bitrate (config.framerate * 2 % 4294967296)
  | HardwareAccel.Vaapi =>
      vaapih264enc_desc config.quality.bitrate (config.framerate * 2 % 4294967296)
  | HardwareAccel.Auto =>
      if probe.nvenc_available then
        nvh264enc_desc config.quality.bitrate (config.framerate * 2 % 4294967296)
      else if probe.vaapi_available then
        vaapih264enc_desc config.quality.bitrate (config.framerate * 2 % 4294967296)
      else
        x264enc_desc config.quality.preset config.quality.bitrate
          (config.framerate * 2 % 4294967296)

/-- Function `build_pipeline` in `x11_capture.rs`: the ximagesrc source, the raw-video
caps, the selected encoder, and the h264parse/appsink tail, joined by ` ! `
exactly as the Rust `format!` strings do. -/
def build_pipeline (probe : Probe) (monitor : MonitorInfo) (config : CaptureConfig) : String :=
  "ximagesrc startx=" ++ toString monitor.x ++ " starty=" ++ toString monitor.y ++
    " endx=" ++ toString (monitor.x + (monitor.width : Int)) ++
    " endy=" ++ toString (monitor.y + (monitor.height : Int)) ++
    " use-damage=false" ++ " ! " ++
    "video/x-raw,framerate=" ++ toString config.framerate ++ "/1" ++
    " ! videoconvert ! " ++ encoderFor probe config ++
    " ! h264parse ! video/x-h264,stream-format=byte-stream ! appsink name=sink"

/-- An encoder element string of the NVENC class: it is the `nvh264enc`
GStreamer element. -/
def IsNvencClass (s : String) : Prop := ∃ rest, s = "nvh264enc" ++ rest

/-- An encoder element string of the VAAPI class: it is the `vaapih264enc`
GStreamer element. -/
def IsVaapiClass (s : String) : Prop := ∃ rest, s = "vaapih264enc" ++ rest

/-- An encoder element string of the software x264 class: it is the
`x264enc` GStreamer element. -/
def IsX264Class (s : String) : Prop := ∃ rest, s = "x264enc" ++ rest

/-- The pipeline description sets a key-frame-interval parameter
(`key-int-max`, `gop-size` or `keyframe-period`) to exactly the value `v`:
right after `name=` stand the digits of `v`, and the next character (when
one exists) is not a digit, so `v` is the parameter's complete numeral. -/
def keyIntervalParam (v : Nat) (s : String) : Prop :=
  ∃ name pre post,
    (name = "key-int-max" ∨ name = "gop-size" ∨ name = "keyframe-period") ∧
    s = pre ++ name ++ "=" ++ toString v ++ post ∧
    ∀ c, post.data.head? = some c → c.isDigit = false

/-! Section: Monitor directory (crates/server/src/capture/monitor.rs) -/

/-- One RandR output together with the crtc geometry `get_monitors_x11`
reads for it (`get_output_info` + `get_crtc_info`). -/
structure OutputInfo where
  connected : Bool
  crtc : Nat
  name : String
  x : Int
  y : Int
  width : Nat
  height : Nat
deriving DecidableEq

/-- An output survives the two `continue` filters in `get_monitors_x11`:
it is connected and driven by a crtc. -/
def usable (o : OutputInfo) : Bool := o.connected && o.crtc != 0

/-- The `monitors.push(MonitorInfo { ... })` record in `get_monitors_x11`:
`index` and `primary` come from the enumeration position `idx` over the
full output list. -/
def mkMonitorInfo (idx : Nat) (o : OutputInfo) : MonitorInfo :=
  { index := idx
    name := o.name
    x := o.x
    y := o.y
    width := o.width
    height := o.height
    primary := idx == 0 }

/-- The loop of `get_monitors_x11`: enumerate all outputs, keep the usable
ones, record each with its enumeration index. -/
def usableMonitors (outputs : List OutputInfo) : List MonitorInfo :=
  outputs.enum.filterMap fun p =>
    if usable p.2 then some (mkMonitorInfo p.1 p.2) else none

/-- Function `get_monitors_x11`, with the display-server reply made explicit:
the output list and the root-screen dimensions used by the fallback. -/
def get_monitors_x11 (outputs : List OutputInfo) (screenW screenH : Nat) : List MonitorInfo :=
  if (usableMonitors outputs).isEmpty then
    [{ index := 0, name := "Default", x := 0, y := 0,
       width := screenW, height := screenH, primary := true }]
  else
    usableMonitors outputs

/-- A two-output topology: output 0 is disconnected, output 1 is connected
and driven. -/
def exOutputs : List OutputInfo :=
  [{ connected := false, crtc := 0, name := "DP-0", x := 0, y := 0, width := 1920, height := 1080 },
   { connected := true, crtc := 5, name := "HDMI-1", x := 0, y := 0, width := 1920, height := 1080 }]

/-! Section: Clipboard manager (crates/server/src/clipboard/mod.rs) -/

/-- A published clipboard update (`ClipboardContent`). -/
structure ClipboardContent where
  text : String
  timestamp : Nat
deriving DecidableEq

/-- The state guarded by the clipboard manager: the host clipboard text and
the `last_content` echo-suppression value. -/
structure ClipboardState where
  host : String
  last : String
deriving DecidableEq

/-- Method `ClipboardManager::set_content`: the host write happens first (it may
fail, modelled by `writeOk`); the `?` operator returns the error before the
`last_content` update line runs. -/
def set_content (s : ClipboardState) (text : String) (writeOk : Bool) :
    ClipboardState × Except String Unit :=
  match (if writeOk then Except.ok { s with host := text }
         else Except.error "Failed to set clipboard") with
  | Except.error e => (s, Except.error e)
  | Except.ok s1 => ({ s1 with last := text }, Except.ok ())

/-- One iteration of the polling loop in `start_monitoring`: read the host
clipboard (a failed read is skipped), compare with `last_content`, and on a
difference update `last_content` and publish the new text with the current
microsecond timestamp. -/
def pollCycle (s : ClipboardState) (readOk : Bool) (now_us : Nat) :
    ClipboardState × Option ClipboardContent :=
  if readOk then
    if s.host = s.last then (s, none)
    else ({ s with last := s.host }, some { text := s.host, timestamp := now_us })
  else (s, none)

/-! Section: Shutdown coordinator (crates/server/src/signal_handler.rs) -/

/-- The signals visible to one iteration of the monitor loop in
`ShutdownCoordinator::start_monitor`: the coordinator's main signal, the
per-unit signals collected before the monitor was spawned, and the
monitor's own signal. -/
structure MonitorState where
  main : Bool
  units : List Bool
  monSig : Bool

/-- One iteration of the monitor loop body: propagate a set main signal to
every unit and stop; otherwise set the main signal if some unit's signal is
set; then stop if the monitor's own signal is set.  The second component is
true when the loop breaks. -/
def monitorStep (s : MonitorState) : MonitorState × Bool :=
  if s.main then
    ({ s with units := s.units.map fun _ => true }, true)
  else
    let s1 := if s.units.any (fun b => b) then { s with main := true } else s
    if s1.monSig then (s1, true) else (s1, false)

/-- Method `ShutdownCoordinator::wait_for_completion`, with each registered unit's
join outcome given explicitly (`true` = joined cleanly, `false` = the
unit's work panicked or failed).  The function only collects the names of
failed units; an `Except.error` result would model a re-raised failure and
is never produced. -/
def wait_for_completion (threads : List (String × Bool)) : Except String (List String) :=
  Except.ok (threads.foldl (fun failed t => if t.2 then failed else failed ++ [t.1]) [])

/-- The shared stores behind every `ShutdownSignal`: clones of one signal
share one cell, identified by a `Nat` id. -/
def SigStore : Type := Nat → Bool

/-- The operations any holder of signal clones can perform; reads
(`is_shutdown`, `wait`) do not change the store, and there is no reset. -/
inductive SigOp where
  | shutdown (id : Nat)

/-- Method `ShutdownSignal::shutdown` on the clone family `id`: store `true`. -/
def applyOp (st : SigStore) : SigOp → SigStore
  | SigOp.shutdown i => fun j => if j = i then true else st j

/-- Run a sequence of signal operations. -/
def applyOps (st : SigStore) : List SigOp → SigStore
  | [] => st
  | op :: ops => applyOps (applyOp st op) ops

/-- Method `ShutdownSignal::is_shutdown` on a clone of family `i`. -/
def is_shutdown (st : SigStore) (i : Nat) : Bool := st i

/-! Section: Input injector (crates/server/src/input/x11_input.rs) -/

/-- The rdev key codes produced by `X11InputHandler::to_rdev_key`. -/
inductive Key where
  | KeyA | KeyB | KeyC | KeyD | KeyE | KeyF | KeyG | KeyH | KeyI | KeyJ
  | KeyK | KeyL | KeyM | KeyN | KeyO | KeyP | KeyQ | KeyR | KeyS | KeyT
  | KeyU | KeyV | KeyW | KeyX | KeyY | KeyZ
  | Num0 | Num1 | Num2 | Num3 | Num4 | Num5 | Num6 | Num7 | Num8 | Num9
  | Return | Escape | Backspace | Tab | Space
  | ShiftLeft | ShiftRight | ControlLeft | ControlRight | Alt | AltGr
  | MetaLeft | MetaRight | CapsLock
  | F1 | F2 | F3 | F4 | F5 | F6 | F7 | F8 | F9 | F10 | F11 | F12
  | UpArrow | DownArrow | LeftArrow | RightArrow
  | Home | End | PageUp | PageDown | Delete | Insert
deriving DecidableEq

/-- The host calls `handle_keyboard` can issue through `rdev::simulate`. -/
inductive HostEvent where
  | KeyPress (k : Key)
  | KeyRelease (k : Key)
deriving DecidableEq

/-- Keyboard protocol events (`KeyEvent` in `input/mod.rs`). -/
inductive KeyEvent where
  | KeyDown (code : Nat) (key : String)
  | KeyUp (code : Nat) (key : String)
deriving DecidableEq

/-- The key-name field shared by both `KeyEvent` variants. -/
def KeyEvent.key : KeyEvent → String
  | KeyEvent.KeyDown _ k => k
  | KeyEvent.KeyUp _ k => k

/-- Method `X11InputHandler::to_rdev_key`: the fixed lowercase-name lookup table. -/
def to_rdev_key (key_str : String) : Option Key :=
  match key_str.toLower with
  | "a" => some Key.KeyA
  | "b" => some Key.KeyB
  | "c" => some Key.KeyC
  | "d" => some Key.KeyD
  | "e" => some Key.KeyE
  | "f" => some Key.KeyF
  | "g" => some Key.KeyG
  | "h" => some Key.KeyH
  | "i" => some Key.KeyI
  | "j" => some Key.KeyJ
  | "k" => some Key.KeyK
  | "l" => some Key.KeyL
  | "m" => some Key.KeyM
  | "n" => some Key.KeyN
  | "o" => some Key.KeyO
  | "p" => some Key.KeyP
  | "q" => some Key.KeyQ
  | "r" => some Key.KeyR
  | "s" => some Key.KeyS
  | "t" => some Key.KeyT
  | "u" => some Key.KeyU
  | "v" => some Key.KeyV
  | "w" => some Key.KeyW
  | "x" => some Key.KeyX
  | "y" => some Key.KeyY
  | "z" => some Key.KeyZ
  | "0" => some Key.Num0
  | "1" => some Key.Num1
  | "2" => some Key.Num2
  | "3" => some Key.Num3
  | "4" => some Key.Num4
  | "5" => some Key.Num5
  | "6" => some Key.Num6
  | "7" => some Key.Num7
  | "8" => some Key.Num8
  | "9" => some Key.Num9
  | "enter" | "return" => some Key.Return
  | "escape" | "esc" => some Key.Escape
  | "backspace" => some Key.Backspace
  | "tab" => some Key.Tab
  | "space" => some Key.Space
  | "shift" | "shiftleft" => some Key.ShiftLeft
  | "shiftright" => some Key.ShiftRight
  | "control" | "controlleft" | "ctrl" => some Key.ControlLeft
  | "controlright" | "ctrlright" => some Key.ControlRight
  | "alt" | "altleft" => some Key.Alt
  | "altright" => some Key.AltGr
  | "meta" | "super" | "metaleft" => some Key.MetaLeft
  | "metaright" | "superright" => some Key.MetaRight
  | "capslock" => some Key.CapsLock
  | "f1" => some Key.F1
  | "f2" => some Key.F2
  | "f3" => some Key.F3
  | "f4" => some Key.F4
  | "f5" => some Key.F5
  | "f6" => some Key.F6
  | "f7" => some Key.F7
  | "f8" => some Key.F8
  | "f9" => some Key.F9
  | "f10" => some Key.F10
  | "f11" => some Key.F11
  | "f12" => some Key.F12
  | "arrowup" | "up" => some Key.UpArrow
  | "arrowdown" | "down" => some Key.DownArrow
  | "arrowleft" | "left" => some Key.LeftArrow
  | "arrowright" | "right" => some Key.RightArrow
  | "home" => some Key.Home
  | "end" => some Key.End
  | "pageup" => some Key.PageUp
  | "pagedown" => some Key.PageDown
  | "delete" => some Key.Delete
  | "insert" => some Key.Insert
  | _ => none

/-- Method `X11InputHandler::handle_keyboard`: translate the key name; an unmapped
name fails before any host call; otherwise emit the press or release call
for the translated key. -/
def handle_keyboard (event : KeyEvent) : Except String (List HostEvent) :=
  match to_rdev_key event.key with
  | none => Except.error ("Unknown key: " ++ event.key)
  | some k =>
      match event with
      | KeyEvent.KeyDown _ _ => Except.ok [HostEvent.KeyPress k]
      | KeyEvent.KeyUp _ _ => Except.ok [HostEvent.KeyRelease k]

/-! Section: String helpers -/

theorem str_append_assoc (a b c : String) : a ++ b ++ c = a ++ (b ++ c) := by
  apply String.ext
  simp [String.data_append]

theorem str_append_empty (a : String) : a ++ "" = a := by
  apply String.ext
  simp [String.data_append]

/-! Section: Encoder classification lemmas -/

theorem nvh264enc_desc_class (b g : Nat) : IsNvencClass (nvh264enc_desc b g) := by
  refine ⟨" preset=low-latency-hq rc-mode=cbr bitrate=" ++ toString b ++
    " gop-size=" ++ toString g, ?_⟩
  have h : ("nvh264enc preset=low-latency-hq rc-mode=cbr bitrate=" : String) =
      "nvh264enc" ++ " preset=low-latency-hq rc-mode=cbr bitrate=" := by decide
  rw [nvh264enc_desc, h]
  simp only [str_append_assoc]

theorem vaapih264enc_desc_class (b k : Nat) : IsVaapiClass (vaapih264enc_desc b k) := by
  refine ⟨" rate-control=cbr bitrate=" ++ toString b ++
    " keyframe-period=" ++ toString k, ?_⟩
  have h : ("vaapih264enc rate-control=cbr bitrate=" : String) =
      "vaapih264enc" ++ " rate-control=cbr bitrate=" := by decide
  rw [vaapih264enc_desc, h]
  simp only [str_append_assoc]

theorem x264enc_desc_class (p : String) (b k : Nat) : IsX264Class (x264enc_desc p b k) := by
  refine ⟨" tune=zerolatency speed-preset=" ++ p ++ " bitrate=" ++ toString b ++
    " key-int-max=" ++ toString k, ?_⟩
  have h : ("x264enc tune=zerolatency speed-preset=" : String) =
      "x264enc" ++ " tune=zerolatency speed-preset=" := by decide
  rw [x264enc_desc, h]
  simp only [str_append_assoc]

/-! Section: Key-frame-interval lemmas -/

theorem keyIntervalParam_append (v : Nat) (s a b : String)
    (hb : ∀ c, b.data.head? = some c → c.isDigit = false)
    (h : keyIntervalParam v s) : keyIntervalParam v (a ++ s ++ b) := by
  obtain ⟨name, pre, post, hn, hs, hpost⟩ := h
  refine ⟨name, a ++ pre, post ++ b, hn, ?_, ?_⟩
  · rw [hs]
    simp only [str_append_assoc]
  · intro c hc
    rw [String.data_append] at hc
    cases hp : post.data with
    | nil =>
        rw [hp] at hc
        simp only [List.nil_append] at hc
        exact hb c hc
    | cons ch tl =>
        rw [hp] at hc
        simp only [List.cons_append, List.head?_cons] at hc
        rw [← Option.some.inj hc]
        exact hpost ch (by rw [hp]; rfl)

theorem keyIntervalParam_x264 (p : String) (b k : Nat) :
    keyIntervalParam k (x264enc_desc p b k) := by
  refine ⟨"key-int-max",
    "x264enc tune=zerolatency speed-preset=" ++ p ++ " bitrate=" ++ toString b ++ " ",
    "", Or.inl rfl, ?_, fun c hc => Option.noConfusion hc⟩
  have h : (" key-int-max=" : String) = " " ++ "key-int-max" ++ "=" := by decide
  rw [x264enc_desc, h]
  simp only [str_append_assoc, str_append_empty]

theorem keyIntervalParam_nvenc (b k : Nat) :
    keyIntervalParam k (nvh264enc_desc b k) := by
  refine ⟨"gop-size",
    "nvh264enc preset=low-latency-hq rc-mode=cbr bitrate=" ++ toString b ++ " ",
    "", Or.inr (Or.inl rfl), ?_, fun c hc => Option.noConfusion hc⟩
  have h : (" gop-size=" : String) = " " ++ "gop-size" ++ "=" := by decide
  rw [nvh264enc_desc, h]
  simp only [str_append_assoc, str_append_empty]

theorem keyIntervalParam_vaapi (b k : Nat) :
    keyIntervalParam k (vaapih264enc_desc b k) := by
  refine ⟨"keyframe-period",
    "vaapih264enc rate-control=cbr bitrate=" ++ toString b ++ " ",
    "", Or.inr (Or.inr rfl), ?_, fun c hc => Option.noConfusion hc⟩
  have h : (" keyframe-period=" : String) = " " ++ "keyframe-period" ++ "=" := by decide
  rw [vaapih264enc_desc, h]
  simp only [str_append_assoc, str_append_empty]

/-! Section: Claim theorems -/

/-- Claim C1: with `hw_accel = Auto` the pipeline builder selects the NVENC
encoder when the probe reports it, else the VAAPI encoder when the probe
reports it, else the software x264 encoder; with an explicit `Nvenc`,
`Vaapi` or `None` the corresponding encoder is selected independently of the
probe; and the built pipeline description is a deterministic function of
monitor, config and probe. -/
theorem encoder_selection_spec (m : MonitorInfo) (c : CaptureConfig) (p q : Probe) :
    (c.hw_accel = HardwareAccel.Auto →
      (p.nvenc_available = true → IsNvencClass (encoderFor p c)) ∧
      (p.nvenc_available = false → p.vaapi_available = true →
        IsVaapiClass (encoderFor p c)) ∧
      (p.nvenc_available = false → p.vaapi_available = false →
        IsX264Class (encoderFor p c))) ∧
    (c.hw_accel = HardwareAccel.Nvenc →
      IsNvencClass (encoderFor p c) ∧ encoderFor p c = encoderFor q c) ∧
    (c.hw_accel = HardwareAccel.Vaapi →
      IsVaapiClass (encoderFor p c) ∧ encoderFor p c = encoderFor q c) ∧
    (c.hw_accel = HardwareAccel.None →
      IsX264Class (encoderFor p c) ∧ encoderFor p c = encoderFor q c) ∧
    (p = q → build_pipeline p m c = build_pipeline q m c) := by
  refine ⟨?_, ?_, ?_, ?_, fun h => by rw [h]⟩
  · intro hAuto
    refine ⟨?_, ?_, ?_⟩
    · intro hn
      simp only [encoderFor, hAuto, hn, if_true]
      exact nvh264enc_desc_class _ _
    · intro hn hv
      simp only [encoderFor, hAuto, hn, hv, Bool.false_eq_true, if_false, if_true]
      exact vaapih264enc_desc_class _ _
    · intro hn hv
      simp only [encoderFor, hAuto, hn, hv, Bool.false_eq_true, if_false]
      exact x264enc_desc_class _ _ _
  · intro hN
    refine ⟨?_, ?_⟩
    · simp only [encoderFor, hN]
      exact nvh264enc_desc_class _ _
    · simp only [encoderFor, hN]
  · intro hV
    refine ⟨?_, ?_⟩
    · simp only [encoderFor, hV]
      exact vaapih264enc_desc_class _ _
    · simp only [encoderFor, hV]
  · intro hS
    refine ⟨?_, ?_⟩
    · simp only [encoderFor, hS]
      exact x264enc_desc_class _ _ _
    · simp only [encoderFor, hS]

/-- Witness for C1: on the default-style Auto config with an NVENC-capable
probe the selected encoder is of the NVENC class. -/
theorem encoder_selection_spec_witness :
    IsNvencClass (encoderFor ⟨true, true⟩
      ⟨60, HardwareAccel.Auto, ⟨10000, "ultrafast", 23⟩, [0]⟩) :=
  ((encoder_selection_spec ⟨0, "Default", 0, 0, 1920, 1080, true⟩
    ⟨60, HardwareAccel.Auto, ⟨10000, "ultrafast", 23⟩, [0]⟩
    ⟨true, true⟩ ⟨false, false⟩).1 rfl).1 rfl

theorem keyIntervalParam_digits_occur (v : Nat) (s : String) (h : keyIntervalParam v s) :
    (toString v).data <:+: s.data := by
  obtain ⟨name, pre, post, hn, hs, hpost⟩ := h
  refine ⟨(pre ++ name ++ "=").data, post.data, ?_⟩
  rw [hs]
  simp only [String.data_append, List.append_assoc]

theorem pipeline_tail_head_not_digit :
    ∀ c, (" ! h264parse ! video/x-h264,stream-format=byte-stream ! appsink name=sink" :
      String).data.head? = some c → c.isDigit = false := by
  intro c hc
  have h1 : (" ! h264parse ! video/x-h264,stream-format=byte-stream ! appsink name=sink" :
      String).data.head? = some ' ' := rfl
  rw [h1] at hc
  rw [← Option.some.inj hc]
  decide

set_option maxRecDepth 16384 in
/-- Counterexample for C2: at `framerate = 2^31` the source's `u32`
multiplication `framerate * 2` wraps to 0, so the built pipeline sets
`key-int-max=0` and does not set any key-frame-interval parameter to
`2 × framerate = 4294967296` — that numeral appears nowhere in the
description. -/
theorem keyframe_interval_counterexample :
    ¬ keyIntervalParam (2 * 2147483648)
        (build_pipeline ⟨false, false⟩ ⟨0, "Default", 0, 0, 1920, 1080, true⟩
          ⟨2147483648, HardwareAccel.None, ⟨10000, "ultrafast", 23⟩, [0]⟩) := by
  intro h
  exact absurd (keyIntervalParam_digits_occur _ _ h) (by decide)

/-- Claim C2 (amended): whichever encoder is selected, the built pipeline
description sets its key-frame-interval parameter (`key-int-max`,
`gop-size` or `keyframe-period`) to exactly `(2 × framerate) mod 2^32`
(the source multiplies in `u32`); in particular to exactly `2 × framerate`
whenever that product fits in `u32`, i.e. for every framerate below
2^31. -/
theorem keyframe_interval_mod_u32 (m : MonitorInfo) (c : CaptureConfig) (p : Probe) :
    keyIntervalParam (2 * c.framerate % 4294967296) (build_pipeline p m c) ∧
    (2 * c.framerate < 4294967296 →
      keyIntervalParam (2 * c.framerate) (build_pipeline p m c)) := by
  have h1 : keyIntervalParam (2 * c.framerate % 4294967296) (build_pipeline p m c) := by
    rw [Nat.mul_comm]
    rw [build_pipeline]
    apply keyIntervalParam_append _ _ _ _ pipeline_tail_head_not_digit
    rw [encoderFor]
    cases c.hw_accel with
    | None => exact keyIntervalParam_x264 _ _ _
    | Nvenc => exact keyIntervalParam_nvenc _ _
    | Vaapi => exact keyIntervalParam_vaapi _ _
    | Auto =>
        by_cases hn : p.nvenc_available = true
        · simp only [hn, if_true]
          exact keyIntervalParam_nvenc _ _
        · by_cases hv : p.vaapi_available = true
          · simp only [hn, hv, if_false, if_true]
            exact keyIntervalParam_vaapi _ _
          · simp only [hn, hv, if_false]
            exact keyIntervalParam_x264 _ _ _
  refine ⟨h1, fun hlt => ?_⟩
  rw [← Nat.mod_eq_of_lt hlt]
  exact h1

/-- Witness for C2 (amended): at the default framerate 60 the no-overflow
branch applies and the pipeline sets the interval to exactly 120. -/
theorem keyframe_interval_mod_u32_witness :
    keyIntervalParam (2 * 60)
      (build_pipeline ⟨false, false⟩ ⟨0, "Default", 0, 0, 1920, 1080, true⟩
        ⟨60, HardwareAccel.None, ⟨10000, "ultrafast", 23⟩, [0]⟩) :=
  (keyframe_interval_mod_u32 ⟨0, "Default", 0, 0, 1920, 1080, true⟩
    ⟨60, HardwareAccel.None, ⟨10000, "ultrafast", 23⟩, [0]⟩ ⟨false, false⟩).2 (by decide)

/-- Claim C3: a successful `set_content X` records `X` as last-known before
returning, so the immediately following poll cycle that reads `X` back from
the host publishes nothing; a poll cycle that reads a value `Y` differing
from last-known updates last-known to `Y` and publishes `Y` with the
poll-time microsecond timestamp. -/
theorem clipboard_echo_suppression (s t : ClipboardState) (x y : String)
    (now_us later_us : Nat)
    (hset : set_content s x true = (t, Except.ok ())) :
    t.host = x ∧ t.last = x ∧
    pollCycle t true now_us = (t, none) ∧
    (s.host = y → y ≠ s.last →
      pollCycle s true later_us =
        ({ host := y, last := y }, some { text := y, timestamp := later_us })) := by
  have ht : t = { host := x, last := x } := by
    have := congrArg Prod.fst hset
    simpa [set_content] using this.symm
  subst ht
  refine ⟨rfl, rfl, by simp [pollCycle], ?_⟩
  intro hy hne
  have hhl : ¬ s.host = s.last := by rw [hy]; exact hne
  simp [pollCycle, hhl, hy, hne]

/-- Witness for C3: setting "X" then polling publishes nothing, while a poll
seeing an externally written "Y" publishes it. -/
theorem clipboard_echo_suppression_witness :
    ({ host := "X", last := "X" } : ClipboardState).host = "X" ∧
    ({ host := "X", last := "X" } : ClipboardState).last = "X" ∧
    pollCycle { host := "X", last := "X" } true 5 = ({ host := "X", last := "X" }, none) ∧
    (({ host := "Y", last := "a" } : ClipboardState).host = "Y" → "Y" ≠ "a" →
      pollCycle { host := "Y", last := "a" } true 7 =
        ({ host := "Y", last := "Y" }, some { text := "Y", timestamp := 7 })) :=
  clipboard_echo_suppression { host := "Y", last := "a" } { host := "X", last := "X" }
    "X" "Y" 5 7 rfl

/-- Counterexample for C4: the default `CaptureConfig` does not select all
monitors — on a host with two monitors, monitor 1 is not selected. -/
theorem default_monitors_not_all :
    ¬ ∀ i < 2, i ∈ CaptureConfig.default.monitors := by decide

/-- Claim C4 (amended): the default `CaptureConfig` has framerate 60,
`hw_accel = Auto`, bitrate 10000 kbps, preset "ultrafast", and
`monitors = [0]` — selecting only the first monitor, not all monitors. -/
theorem default_config_values :
    CaptureConfig.default.framerate = 60 ∧
    CaptureConfig.default.hw_accel = HardwareAccel.Auto ∧
    CaptureConfig.default.quality.bitrate = 10000 ∧
    CaptureConfig.default.quality.preset = "ultrafast" ∧
    CaptureConfig.default.monitors = [0] :=
  ⟨rfl, rfl, rfl, rfl, rfl⟩

/-- Counterexample for C5: with output 0 disconnected and output 1 usable,
the single returned entry sits at position 0 but carries index 1, so the
i-th entry's index is not its position among the returned (connected)
outputs. -/
theorem monitor_index_counterexample :
    (get_monitors_x11 exOutputs 1024 768).map MonitorInfo.index ≠
      List.range ((get_monitors_x11 exOutputs 1024 768).length) := by decide

theorem mkMonitorInfo_index (i : Nat) (o : OutputInfo) : (mkMonitorInfo i o).index = i := rfl

theorem usableMonitors_index_aux (l : List (Nat × OutputInfo)) :
    ((l.filterMap fun p =>
        if usable p.2 then some (mkMonitorInfo p.1 p.2) else none).map MonitorInfo.index)
      = (l.filter fun p => usable p.2).map Prod.fst := by
  induction l with
  | nil => rfl
  | cons hd tl ih =>
      cases h : usable hd.2 <;>
        simp [List.filterMap_cons, List.filter_cons, h, ih, mkMonitorInfo_index]

/-- Claim C5 (amended): each returned entry's index is the position of its
output in the display server's full output enumeration (skipped
disconnected/undriven outputs included), not its position in the returned
sequence; when no output is usable the single fallback entry has index 0. -/
theorem monitor_index_output_position (outs : List OutputInfo) (w h : Nat) :
    (usableMonitors outs ≠ [] →
      (get_monitors_x11 outs w h).map MonitorInfo.index =
        ((outs.enum.filter fun p => usable p.2).map Prod.fst)) ∧
    (usableMonitors outs = [] →
      (get_monitors_x11 outs w h).map MonitorInfo.index = [0]) := by
  constructor
  · intro hne
    have hE : (usableMonitors outs).isEmpty = false := by
      cases hcase : usableMonitors outs with
      | nil => exact absurd hcase hne
      | cons a l => rfl
    rw [get_monitors_x11, hE]
    simp only [Bool.false_eq_true, if_false]
    rw [usableMonitors]
    exact usableMonitors_index_aux outs.enum
  · intro hnil
    have hE : (usableMonitors outs).isEmpty = true := by rw [hnil]; rfl
    rw [get_monitors_x11, hE]
    simp

/-- Witness for C5 (amended): on the two-output topology the returned index
list equals the enumeration positions of the usable outputs. -/
theorem monitor_index_output_position_witness :
    (get_monitors_x11 exOutputs 1024 768).map MonitorInfo.index =
      ((exOutputs.enum.filter fun p => usable p.2).map Prod.fst) :=
  (monitor_index_output_position exOutputs 1024 768).1 (by decide)

/-- Claim C6: if some registered unit's signal is set while the main signal
is not, one monitor iteration sets the main signal, and the following
iteration sets every registered unit's signal. -/
theorem monitor_propagation (s : MonitorState)
    (hmain : s.main = false) (hunit : s.units.any (fun b => b) = true) :
    (monitorStep s).1.main = true ∧
    ∀ b ∈ (monitorStep (monitorStep s).1).1.units, b = true := by
  have h1 : (monitorStep s).1 = { s with main := true } := by
    rw [monitorStep]
    simp only [hmain, hunit, Bool.false_eq_true, if_false, if_true]
    cases hm : s.monSig <;> simp [hm]
  rw [h1]
  refine ⟨rfl, ?_⟩
  rw [monitorStep]
  simp

/-- Witness for C6: three registered units, the middle one has signalled. -/
theorem monitor_propagation_witness :
    (monitorStep ⟨false, [false, true, false], false⟩).1.main = true ∧
    ∀ b ∈ (monitorStep (monitorStep ⟨false, [false, true, false], false⟩).1).1.units,
      b = true :=
  monitor_propagation ⟨false, [false, true, false], false⟩ rfl rfl

theorem wait_foldl_aux (l : List (String × Bool)) (acc : List String) :
    l.foldl (fun failed t => if t.2 then failed else failed ++ [t.1]) acc =
      acc ++ (l.filter fun t => !t.2).map Prod.fst := by
  induction l generalizing acc with
  | nil => simp
  | cons hd tl ih =>
      cases h : hd.2 <;> simp [List.foldl_cons, List.filter_cons, h, ih]

/-- Claim C7: `wait_for_completion` joins every registered unit and returns
normally whatever the join outcomes are; failed units are collected (their
names, in registration order), never re-raised. -/
theorem wait_for_completion_collects_failures (threads : List (String × Bool)) :
    wait_for_completion threads =
      Except.ok ((threads.filter fun t => !t.2).map Prod.fst) := by
  rw [wait_for_completion, wait_foldl_aux]
  rfl

theorem applyOps_keeps_set (ops : List SigOp) (st : SigStore) (i : Nat)
    (h : st i = true) : applyOps st ops i = true := by
  induction ops generalizing st with
  | nil => exact h
  | cons op ops ih =>
      cases op with
      | shutdown j =>
          apply ih
          show (if i = j then true else st i) = true
          by_cases hij : i = j <;> simp [hij, h]

/-- Claim C8: `ShutdownSignal` is monotonic — after `shutdown()` on any
clone of the family `i`, `is_shutdown` on every clone of that family
returns true after any further sequence of operations. -/
theorem shutdown_signal_monotonic (st : SigStore) (i : Nat) (ops : List SigOp) :
    is_shutdown (applyOps (applyOp st (SigOp.shutdown i)) ops) i = true := by
  apply applyOps_keeps_set
  show (if i = i then true else st i) = true
  simp

/-- Claim C9: when the host-clipboard write fails, `set_content` returns the
error and leaves the whole state — in particular the last-known content —
unchanged. -/
theorem set_content_error_atomic (s : ClipboardState) (text : String) :
    (∃ e, set_content s text false = (s, Except.error e)) ∧
    (set_content s text false).1.last = s.last := by
  exact ⟨⟨"Failed to set clipboard", rfl⟩, rfl⟩

/-- Claim C10: keyboard injection ignores the numeric `code` field — two
`KeyDown` (or two `KeyUp`) events with equal key strings and different
codes produce the same translation, the same host calls and the same
result. -/
theorem handle_keyboard_ignores_code (c1 c2 : Nat) (key : String) :
    handle_keyboard (KeyEvent.KeyDown c1 key) = handle_keyboard (KeyEvent.KeyDown c2 key) ∧
    handle_keyboard (KeyEvent.KeyUp c1 key) = handle_keyboard (KeyEvent.KeyUp c2 key) :=
  ⟨rfl, rfl⟩

end Koko
